import Mathlib

/-!
# Verification of the Polymarket 5-minute arbitrage bot's settlement core

A shallow embedding of the two source files of the repository:

* `src/merge.rs`   — CTF position-merge settlement (`merge_max` and its helpers);
* `src/trading/executor.rs` — arbitrage order-pair execution
  (`execute_arbitrage_pair` and its helpers).

Bytes are modelled as `Nat` entries of a `List Nat`; `U256` values and Rust
`u64` values are `Nat`; `rust_decimal::Decimal` values are `ℚ` (the code only
adds, multiplies, compares and takes `min` of in-range decimals, all of which
are exact in `Decimal` and in `ℚ`).  `keccak256` is kept abstract as a
function parameter `K : List Nat → List Nat`: every property proved here is a
property of the byte strings that are hashed, never of the hash values
themselves.  All I/O (balance reads, bytecode reads, the relayer, the CLOB
batch endpoint) is modelled as explicit environment fields, so "no network
call is made" becomes "the result is a fixed value for every environment".
-/

namespace PolyArb

/-! ## Byte-level helpers -/

/-- Big-endian 32-byte encoding of a `U256`/`u64` value
(`U256::from(n).to_be_bytes::<32>()` in the source). -/
def be32 (n : Nat) : List Nat :=
  (List.range 32).map (fun i => n / 256 ^ (31 - i) % 256)

/-- Bytes `[12..32)` of a 32-byte word, as in
`Address::from_slice(&h.as_slice()[12..32])` (`merge.rs` line 137). -/
def low20 (l : List Nat) : List Nat :=
  (l.drop 12).take 20

/-- ASCII bytes of a string literal. -/
def asciiBytes (s : String) : List Nat :=
  s.toList.map Char.toNat

/-! ## Rust `str::parse::<u64>`

`merge.rs` line 215 is `let n: u64 = nonce.parse().unwrap_or(0);`.  Rust's
`u64` parser accepts an optional leading `+`, then one or more ASCII digits,
and fails on an empty digit string, any other character, or overflow past
`2 ^ 64 - 1`. -/

def parseDigitsAux : List Char → Nat → Option Nat
  | [], acc => some acc
  | c :: cs, acc =>
    if c.isDigit then parseDigitsAux cs (acc * 10 + (c.toNat - 48)) else none

def rustParseU64 (s : String) : Option Nat :=
  let cs := s.toList
  let body := match cs with
    | '+' :: rest => rest
    | l => l
  if body.isEmpty then none
  else
    match parseDigitsAux body 0 with
    | none => none
    | some v => if v < 2 ^ 64 then some v else none

/-! ## Substring test (Rust `str::contains`) -/

def listStartsWith : List Char → List Char → Bool
  | _, [] => true
  | [], _ :: _ => false
  | x :: xs, y :: ys => x = y && listStartsWith xs ys

def listHasInner : List Char → List Char → Bool
  | [], pat => pat.isEmpty
  | x :: xs, pat => listStartsWith (x :: xs) pat || listHasInner xs pat

def strContains (hay pat : String) : Bool :=
  listHasInner hay.toList pat.toList

/-! ## Constants of `merge.rs` (lines 82–95) -/

/-- `USDC_POLYGON = 0x2791Bca1f2de4661ED88A30C99A7a9449Aa84174`. -/
def USDC_POLYGON : List Nat :=
  [0x27, 0x91, 0xbc, 0xa1, 0xf2, 0xde, 0x46, 0x61, 0xed, 0x88,
   0xa3, 0x0c, 0x99, 0xa7, 0xa9, 0x44, 0x9a, 0xa8, 0x41, 0x74]

/-- `PROXY_FACTORY = 0xaB45c5A4B0c941a2F231C04C3f49182e1A254052`. -/
def PROXY_FACTORY : List Nat :=
  [0xab, 0x45, 0xc5, 0xa4, 0xb0, 0xc9, 0x41, 0xa2, 0xf2, 0x31,
   0xc0, 0x4c, 0x3f, 0x49, 0x18, 0x2e, 0x1a, 0x25, 0x40, 0x52]

/-- `RELAY_HUB = 0xD216153c06E857cD7f72665E0aF1d7D82172F494`. -/
def RELAY_HUB : List Nat :=
  [0xd2, 0x16, 0x15, 0x3c, 0x06, 0xe8, 0x57, 0xcd, 0x7f, 0x72,
   0x66, 0x5e, 0x0a, 0xf1, 0xd7, 0xd8, 0x21, 0x72, 0xf4, 0x94]

/-- `PROXY_INIT_CODE_HASH` (`merge.rs` lines 91–94). -/
def PROXY_INIT_CODE_HASH : List Nat :=
  [0xd2, 0x1d, 0xf8, 0xdc, 0x65, 0x88, 0x0a, 0x86, 0x06, 0xf0, 0x9f, 0xe0,
   0xce, 0x3d, 0xf9, 0xb8, 0x86, 0x92, 0x87, 0xab, 0x0b, 0x05, 0x8b, 0xe0,
   0x5a, 0xa9, 0xe8, 0xaf, 0x63, 0x30, 0xa0, 0x0b]

/-- `PROXY_DEFAULT_GAS = 160_000`. -/
def PROXY_DEFAULT_GAS : Nat := 160000

/-- ASCII bytes of the merge call's canonical signature (`merge.rs` line 114). -/
def MERGE_SIG_BYTES : List Nat :=
  asciiBytes "mergePositions(address,bytes32,bytes32,uint256[],uint256)"

/-- The fixed ASCII domain tag `"rlx:"` (`merge.rs` line 208). -/
def RLX_TAG : List Nat := asciiBytes "rlx:"

/-- The personal-message framing bytes (`merge.rs` line 223). -/
def ETH_SIGNED_MESSAGE_TAG : List Nat :=
  asciiBytes "\x19Ethereum Signed Message:\n32"

/-! ## `merge.rs` pure functions -/

/-- `encode_merge_calldata` (`merge.rs` lines 113–127): 4-byte selector taken
from the keccak of the canonical signature, 12 padding zeros plus the 20-byte
collateral address, two 32-byte ids, the head offset 160, the amount, and the
length-prefixed partition elements. -/
def encode_merge_calldata (K : List Nat → List Nat)
    (collateralToken parentCollectionId conditionId : List Nat)
    (partition : List Nat) (amount : Nat) : List Nat :=
  (K MERGE_SIG_BYTES).take 4
    ++ List.replicate 12 0
    ++ collateralToken
    ++ parentCollectionId
    ++ conditionId
    ++ be32 160
    ++ be32 amount
    ++ be32 partition.length
    ++ (partition.map be32).flatten

/-- `derive_proxy_wallet` (`merge.rs` lines 129–138): the CREATE2-style
derivation `keccak(0xff ‖ factory ‖ keccak(eoa) ‖ initCodeHash)`, low 20
bytes. -/
def derive_proxy_wallet (K : List Nat → List Nat)
    (eoa proxyFactory : List Nat) : List Nat :=
  let salt := K eoa
  let buf := [0xff] ++ proxyFactory ++ salt ++ PROXY_INIT_CODE_HASH
  low20 (K buf)

/-- The exact byte string hashed by `create_struct_hash`
(`merge.rs` lines 196–220), before the keccak is applied: the tag, the two
addresses, the calldata, the four 32-byte numeric fields (fee, gas price,
gas limit, parsed nonce) and the two relay addresses. -/
def struct_hash_preimage (sender target : List Nat) (data : List Nat)
    (txFee gasPrice gasLimit : Nat) (nonce : String)
    (relayHub relay : List Nat) : List Nat :=
  RLX_TAG ++ sender ++ target ++ data
    ++ be32 txFee ++ be32 gasPrice ++ be32 gasLimit
    ++ be32 ((rustParseU64 nonce).getD 0)
    ++ relayHub ++ relay

/-- `create_struct_hash` (`merge.rs` lines 196–220). -/
def create_struct_hash (K : List Nat → List Nat)
    (sender target : List Nat) (data : List Nat)
    (txFee gasPrice gasLimit : Nat) (nonce : String)
    (relayHub relay : List Nat) : List Nat :=
  K (struct_hash_preimage sender target data txFee gasPrice gasLimit nonce relayHub relay)

/-- `eip191_hash` (`merge.rs` lines 222–226). -/
def eip191_hash (K : List Nat → List Nat) (structHash : List Nat) : List Nat :=
  K (ETH_SIGNED_MESSAGE_TAG ++ structHash)

/-! ## `merge_max` orchestration (`merge.rs` lines 332–430)

Network effects are environment fields:

* `bYesRead` / `bNoRead` — the two `balanceOf` calls (lines 360–361);
  `none` is a failed call, degraded with `unwrap_or(U256::ZERO)`;
* `codeRead` — `provider.get_code_at(proxy)` (line 371); `none` is a failed
  call, degraded with `unwrap_or_default()` to empty bytecode;
* `tryAnyway` — the `MERGE_TRY_ANYWAY` environment variable (line 375);
* `builderKey`, `builderSecret`, `builderPassphrase` — the three
  `POLY_BUILDER_*` environment variables (lines 386–388);
* `relayerRun` — the whole of `relayer_execute_merge` (lines 228–318),
  abstracted as a function of the credentials and the merge calldata;
* `safeRun` — the whole Gnosis-Safe branch's chain I/O (lines 402–429),
  abstracted as a function of the merge calldata.
-/

structure MergeEnv where
  conditionId : List Nat
  proxy : List Nat
  wallet : List Nat
  bYesRead : Option Nat
  bNoRead : Option Nat
  codeRead : Option (List Nat)
  tryAnyway : Bool
  builderKey : Option String
  builderSecret : Option String
  builderPassphrase : Option String
  relayerRun : String → String → String → List Nat → Except String String
  safeRun : List Nat → Except String String

inductive MergePath where
  | forwardingProxy
  | multisig
deriving DecidableEq

inductive MergeError where
  | nothingToMerge (bYes bNo : Nat)
  | proxyKindMismatch (configured derived : List Nat)
  | missingRelayerCredentials
  | relayerFailed (msg : String)
  | safeFailed (msg : String)
deriving DecidableEq

/-- `merge_amount = b_yes.min(b_no)` (`merge.rs` line 363). -/
def merge_amount (bYes bNo : Nat) : Nat := min bYes bNo

/-- Path selection (`merge.rs` line 373): any proxy bytecode shorter than 150
bytes — including the empty bytecode a failed read degrades to — selects the
forwarding-proxy/relayer path. -/
def select_path (codeRead : Option (List Nat)) : MergePath :=
  if (codeRead.getD []).length < 150 then .forwardingProxy else .multisig

/-- The forwarding-proxy branch of `merge_max` (`merge.rs` lines 373–399):
CREATE2 re-derivation check guarded by `MERGE_TRY_ANYWAY`, then the
three-credential check, then the relayer submission. -/
def forwarding_branch (K : List Nat → List Nat) (env : MergeEnv)
    (mergeCalldata : List Nat) : Except MergeError String :=
  let derived := derive_proxy_wallet K env.wallet PROXY_FACTORY
  if derived ≠ env.proxy ∧ env.tryAnyway = false then
    .error (.proxyKindMismatch env.proxy derived)
  else
    match env.builderKey, env.builderSecret, env.builderPassphrase with
    | some k, some s, some p =>
      (env.relayerRun k s p mergeCalldata).mapError .relayerFailed
    | _, _, _ => .error .missingRelayerCredentials

/-- `merge_max` (`merge.rs` lines 332–430).  The merge request is
`MergePositionsRequest::for_binary_market(USDC_POLYGON, condition_id, amount)`,
whose parent collection id is the zero word and whose partition is `{1, 2}`
(spec §4.2: "Partition is fixed to `{1, 2}` for a binary market"; the request
constructor itself lives in the SDK crate, outside this repository). -/
def merge_max (K : List Nat → List Nat) (env : MergeEnv) : Except MergeError String :=
  let bYes := env.bYesRead.getD 0
  let bNo := env.bNoRead.getD 0
  if merge_amount bYes bNo = 0 then
    .error (.nothingToMerge bYes bNo)
  else
    let mergeCalldata :=
      encode_merge_calldata K USDC_POLYGON (List.replicate 32 0) env.conditionId
        [1, 2] (merge_amount bYes bNo)
    if select_path env.codeRead = .forwardingProxy then
      forwarding_branch K env mergeCalldata
    else
      (env.safeRun mergeCalldata).mapError .safeFailed

/-! ## `trading/executor.rs` — the order-pair executor

`rust_decimal::Decimal` prices, sizes and filled amounts are modelled as `ℚ`.
The `TradingExecutor` configuration fields that `execute_arbitrage_pair`
reads are carried in `TradingExecutor`; the authenticated CLOB client, the
order builder, the signer and the batch submission endpoint are environment
fields of `ExecEnv`, with the built-order and signed-order types abstract. -/

inductive RSide where
  | buy
  | sell
deriving DecidableEq

/-- `polymarket_client_sdk::clob::types::OrderType`. -/
inductive ROrderType where
  | GTC
  | GTD
  | FOK
  | FAK
deriving DecidableEq

/-- The data `execute_arbitrage_pair` fixes on each leg's limit order before
building it (`executor.rs` lines 219–248): token id, `Side::Buy`, the
slippage-adjusted price, the shared size, the configured order type, and an
expiration if and only if the order type is GTD. -/
structure OrderSpec where
  tokenId : Nat
  side : RSide
  price : ℚ
  size : ℚ
  orderType : ROrderType
  expiration : Option Nat
deriving DecidableEq

/-- The per-leg entry of the batch-submission response
(`post_orders` result items: `order_id`, `taking_amount`, `success`,
`error_msg`). -/
structure PostOrderResult where
  orderId : String
  takingAmount : ℚ
  success : Bool
  errorMsg : Option String
deriving DecidableEq

/-- `OrderPairResult` (`executor.rs` lines 17–26). -/
structure OrderPairResult where
  pairId : String
  yesOrderId : String
  noOrderId : String
  yesFilled : ℚ
  noFilled : ℚ
  yesSize : ℚ
  noSize : ℚ
  success : Bool
deriving DecidableEq

/-- The configuration fields of `TradingExecutor` that
`execute_arbitrage_pair` reads (`executor.rs` lines 28–35). -/
structure TradingExecutor where
  maxOrderSize : ℚ
  slippage : ℚ × ℚ
  gtdExpirationSecs : Nat
  arbitrageOrderType : ROrderType

/-- `ArbitrageOpportunity` fields read by `execute_arbitrage_pair`. -/
structure ArbitrageOpportunity where
  marketId : String
  yesTokenId : Nat
  noTokenId : Nat
  yesAskPrice : ℚ
  noAskPrice : ℚ
  yesSize : ℚ
  noSize : ℚ

inductive ExecError where
  | minNotional (yesAmountUsd noAmountUsd : ℚ)
  | buildFailed (msg : String)
  | signFailed (msg : String)
  | batchApiFailed (msg : String)
  | badResultCount (n : Nat)
  | bothUnfilled (yesMsg noMsg : String)
deriving DecidableEq

/-- The executor's effectful collaborators: `Uuid::new_v4` (`pairId`),
`Utc::now` (`now`), the CLOB order builder (`build`), the signer (`sign`)
and the batch endpoint (`postOrders`).  `B` and `S` are the abstract
built-order and signed-order types. -/
structure ExecEnv (B S : Type) where
  now : Nat
  pairId : String
  build : OrderSpec → Except String B
  sign : B → Except String S
  postOrders : List S → Except String (List PostOrderResult)

/-- `slippage_for_direction` (`executor.rs` lines 130–136): only the down
symbol `"↓"` selects the second slippage; every other string selects the
first. -/
def slippage_for_direction (cfg : TradingExecutor) (dir : String) : ℚ :=
  if dir = "↓" then cfg.slippage.2 else cfg.slippage.1

/-- `order_size = opp.yes_size.min(opp.no_size).min(self.max_order_size)`
(`executor.rs` line 168). -/
def order_size (cfg : TradingExecutor) (opp : ArbitrageOpportunity) : ℚ :=
  min (min opp.yesSize opp.noSize) cfg.maxOrderSize

/-- The slippage-adjusted leg price
`(ask + slippage_for_direction(dir)).min(dec!(1.0))`
(`executor.rs` lines 177–180). -/
def leg_price (cfg : TradingExecutor) (ask : ℚ) (dir : String) : ℚ :=
  min (ask + slippage_for_direction cfg dir) 1

/-- The order intent built for one leg (`executor.rs` lines 219–248): buy
side, adjusted price, shared size, configured order type, and an expiration
of `now + gtd_expiration_secs` exactly when the order type is GTD. -/
def order_spec_for (cfg : TradingExecutor) (now tokenId : Nat)
    (price size : ℚ) : OrderSpec :=
  { tokenId := tokenId
    side := .buy
    price := price
    size := size
    orderType := cfg.arbitrageOrderType
    expiration :=
      if cfg.arbitrageOrderType = .GTD then some (now + cfg.gtdExpirationSecs) else none }

/-- Submission ordering (`executor.rs` lines 274–280): the higher-priced leg
first, with `yes_first = yes_price >= no_price`. -/
def ordersToSend {S : Type} (yesFirst : Bool) (signedYes signedNo : S) : List S :=
  if yesFirst then [signedYes, signedNo] else [signedNo, signedYes]

/-- Result remapping (`executor.rs` lines 326–331): the two positional
results are mapped back to `(yes_result, no_result)` with the same
`yes_first` flag that ordered the submission. -/
def extract_pair {R : Type} (yesFirst : Bool) (r0 r1 : R) : R × R :=
  if yesFirst then (r0, r1) else (r1, r0)

/-- The error-message simplification applied to an unfilled leg
(`executor.rs` lines 344–368). -/
def simplify_unfilled (msg : Option String) : String :=
  let m := msg.getD "未知错误"
  if strContains m "no orders found to match" then "订单簿中无匹配订单"
  else if strContains m "GTD" || strContains m "FOK" || strContains m "FAK"
       || strContains m "GTC" then "订单无法成交"
  else m

/-- Fill reconciliation (`executor.rs` lines 336–394 and 448–480): both legs
filled zero is a hard failure carrying the two simplified error reasons —
each leg's own `success` flag is never consulted; otherwise the call returns
an `OrderPairResult` with the true per-leg filled amounts, both size fields
set to the shared order size, and `success := true`. -/
def reconcile_pair (pairId : String) (orderSize : ℚ)
    (yesResult noResult : PostOrderResult) : Except ExecError OrderPairResult :=
  let yesFilled := yesResult.takingAmount
  let noFilled := noResult.takingAmount
  if yesFilled = 0 ∧ noFilled = 0 then
    .error (.bothUnfilled (simplify_unfilled yesResult.errorMsg)
      (simplify_unfilled noResult.errorMsg))
  else
    .ok { pairId := pairId
          yesOrderId := yesResult.orderId
          noOrderId := noResult.orderId
          yesFilled := yesFilled
          noFilled := noFilled
          yesSize := orderSize
          noSize := orderSize
          success := true }

/-- `execute_arbitrage_pair` (`executor.rs` lines 140–481).  The two builds
run under `tokio::join!` and are then unwrapped YES-first, so a YES-side
failure takes precedence; likewise for signing.  The batch response is
required to hold exactly two results, which are remapped by `yes_first`
before reconciliation. -/
def execute_arbitrage_pair {B S : Type} (cfg : TradingExecutor)
    (env : ExecEnv B S) (opp : ArbitrageOpportunity)
    (yesDir noDir : String) : Except ExecError OrderPairResult :=
  let sz := order_size cfg opp
  let yesPrice := leg_price cfg opp.yesAskPrice yesDir
  let noPrice := leg_price cfg opp.noAskPrice noDir
  if yesPrice * sz ≤ 1 ∨ noPrice * sz ≤ 1 then
    .error (.minNotional (yesPrice * sz) (noPrice * sz))
  else
    match env.build (order_spec_for cfg env.now opp.yesTokenId yesPrice sz),
          env.build (order_spec_for cfg env.now opp.noTokenId noPrice sz) with
    | .error e, _ => .error (.buildFailed e)
    | .ok _, .error e => .error (.buildFailed e)
    | .ok yesOrder, .ok noOrder =>
      match env.sign yesOrder, env.sign noOrder with
      | .error e, _ => .error (.signFailed e)
      | .ok _, .error e => .error (.signFailed e)
      | .ok signedYes, .ok signedNo =>
        match env.postOrders (ordersToSend (decide (noPrice ≤ yesPrice)) signedYes signedNo) with
        | .error e => .error (.batchApiFailed e)
        | .ok [r0, r1] =>
          let pr := extract_pair (decide (noPrice ≤ yesPrice)) r0 r1
          reconcile_pair env.pairId sz pr.1 pr.2
        | .ok results => .error (.badResultCount results.length)

/-! ## Concrete instances used by the witnesses -/

/-- A concrete executor configuration. -/
def exCfg : TradingExecutor :=
  { maxOrderSize := 10, slippage := (0, 1/100), gtdExpirationSecs := 90,
    arbitrageOrderType := .GTD }

/-- An opportunity whose legs pass the minimum-notional gate. -/
def exOppBig : ArbitrageOpportunity :=
  { marketId := "m", yesTokenId := 11, noTokenId := 12,
    yesAskPrice := 1/2, noAskPrice := 1/2, yesSize := 10, noSize := 10 }

/-- An opportunity whose legs fail the minimum-notional gate
(`price * size = 1/2 ≤ 1`). -/
def exOppSmall : ArbitrageOpportunity :=
  { marketId := "m", yesTokenId := 11, noTokenId := 12,
    yesAskPrice := 1/2, noAskPrice := 1/2, yesSize := 1, noSize := 1 }

/-- A fully successful trivial environment whose batch endpoint reports
fills of 3 and 4. -/
def exEnv : ExecEnv Unit Unit :=
  { now := 0, pairId := "pair", build := fun _ => .ok (), sign := fun _ => .ok (),
    postOrders := fun _ => .ok
      [{ orderId := "y1", takingAmount := 3, success := true, errorMsg := none },
       { orderId := "n1", takingAmount := 4, success := true, errorMsg := none }] }

/-- The pair result `exEnv` leads to. -/
def exResult : OrderPairResult :=
  { pairId := "pair", yesOrderId := "y1", noOrderId := "n1",
    yesFilled := 3, noFilled := 4, yesSize := 10, noSize := 10, success := true }

/-! ## Claims about `execute_arbitrage_pair` -/

/-- C3: if either leg's slippage-adjusted price times the order size is at or
below 1, `execute_arbitrage_pair` returns the minimum-notional error for
*every* environment — in particular no build, sign or submission effect is
consulted (`executor.rs` lines 201–213). -/
theorem min_notional_gate_rejects {B S : Type} (cfg : TradingExecutor)
    (env : ExecEnv B S) (opp : ArbitrageOpportunity) (yesDir noDir : String)
    (h : leg_price cfg opp.yesAskPrice yesDir * order_size cfg opp ≤ 1 ∨
         leg_price cfg opp.noAskPrice noDir * order_size cfg opp ≤ 1) :
    execute_arbitrage_pair cfg env opp yesDir noDir =
      .error (.minNotional
        (leg_price cfg opp.yesAskPrice yesDir * order_size cfg opp)
        (leg_price cfg opp.noAskPrice noDir * order_size cfg opp)) := by
  simp only [execute_arbitrage_pair]
  rw [if_pos h]

/-- Witness for C3 at a concrete configuration, opportunity and environment. -/
theorem min_notional_gate_rejects_witness :
    (leg_price exCfg exOppSmall.yesAskPrice "" * order_size exCfg exOppSmall ≤ 1 ∨
     leg_price exCfg exOppSmall.noAskPrice "" * order_size exCfg exOppSmall ≤ 1)
    ∧ execute_arbitrage_pair exCfg exEnv exOppSmall "" "" =
        .error (.minNotional
          (leg_price exCfg exOppSmall.yesAskPrice "" * order_size exCfg exOppSmall)
          (leg_price exCfg exOppSmall.noAskPrice "" * order_size exCfg exOppSmall)) :=
  ⟨by norm_num [leg_price, order_size, slippage_for_direction, exCfg, exOppSmall],
   min_notional_gate_rejects exCfg exEnv exOppSmall "" ""
     (by norm_num [leg_price, order_size, slippage_for_direction, exCfg, exOppSmall])⟩

/-- C2: fill reconciliation.  Both legs filled zero is a hard failure no
matter what each leg's own `success` flag says (the flag does not appear in
the condition, and `yr`, `nr` carry arbitrary flags); otherwise — one leg
filled or both legs filled — the call returns a successful `OrderPairResult`
carrying the true per-leg filled amounts (`executor.rs` lines 342–394 and
448–480). -/
theorem reconcile_pair_cases (pid : String) (sz : ℚ) (yr nr : PostOrderResult) :
    (yr.takingAmount = 0 ∧ nr.takingAmount = 0 →
      reconcile_pair pid sz yr nr =
        .error (.bothUnfilled (simplify_unfilled yr.errorMsg)
          (simplify_unfilled nr.errorMsg)))
    ∧ (¬(yr.takingAmount = 0 ∧ nr.takingAmount = 0) →
      reconcile_pair pid sz yr nr =
        .ok { pairId := pid, yesOrderId := yr.orderId, noOrderId := nr.orderId,
              yesFilled := yr.takingAmount, noFilled := nr.takingAmount,
              yesSize := sz, noSize := sz, success := true }) := by
  constructor
  · intro h
    simp only [reconcile_pair]
    rw [if_pos h]
  · intro h
    simp only [reconcile_pair]
    rw [if_neg h]

/-- Witness for C2: a zero/zero pair (with a nominally successful NO leg)
fails, a partial fill (0, 5) succeeds with the true amounts. -/
theorem reconcile_pair_cases_witness :
    (reconcile_pair "p" 10 { orderId := "a", takingAmount := 0, success := true, errorMsg := none }
        { orderId := "b", takingAmount := 0, success := true, errorMsg := none } =
      .error (.bothUnfilled "未知错误" "未知错误"))
    ∧ (reconcile_pair "p" 10 { orderId := "a", takingAmount := 0, success := true, errorMsg := none }
        { orderId := "b", takingAmount := 5, success := true, errorMsg := none } =
      .ok { pairId := "p", yesOrderId := "a", noOrderId := "b",
            yesFilled := 0, noFilled := 5, yesSize := 10, noSize := 10, success := true }) :=
  ⟨(reconcile_pair_cases "p" 10
      { orderId := "a", takingAmount := 0, success := true, errorMsg := none }
      { orderId := "b", takingAmount := 0, success := true, errorMsg := none }).1 ⟨rfl, rfl⟩,
   (reconcile_pair_cases "p" 10
      { orderId := "a", takingAmount := 0, success := true, errorMsg := none }
      { orderId := "b", takingAmount := 5, success := true, errorMsg := none }).2
      (by norm_num)⟩

/-- C4: the batch is ordered with the higher-priced leg first, a tie keeping
YES first because the comparison is `yes_price >= no_price`
(`executor.rs` lines 274–280); and for any positional per-order response,
remapping with the same flag recovers the (YES, NO) identity
(`executor.rs` lines 326–331). -/
theorem submission_order_and_remap {S R : Type} (yesPrice noPrice : ℚ)
    (signedYes signedNo : S) (respond : S → R) :
    (noPrice < yesPrice →
      ordersToSend (decide (noPrice ≤ yesPrice)) signedYes signedNo = [signedYes, signedNo])
    ∧ (yesPrice = noPrice →
      ordersToSend (decide (noPrice ≤ yesPrice)) signedYes signedNo = [signedYes, signedNo])
    ∧ (yesPrice < noPrice →
      ordersToSend (decide (noPrice ≤ yesPrice)) signedYes signedNo = [signedNo, signedYes])
    ∧ (∀ (yesFirst : Bool) (q0 q1 : R),
        (ordersToSend yesFirst signedYes signedNo).map respond = [q0, q1] →
        extract_pair yesFirst q0 q1 = (respond signedYes, respond signedNo)) := by
  refine ⟨?_, ?_, ?_, ?_⟩
  · intro h
    rw [decide_eq_true (le_of_lt h)]
    rfl
  · intro h
    rw [decide_eq_true (le_of_eq h.symm)]
    rfl
  · intro h
    rw [decide_eq_false (not_le.mpr h)]
    rfl
  · intro yesFirst q0 q1 hmap
    cases yesFirst
    · injection hmap with h0 hrest
      injection hrest with h1 _
      simp [extract_pair, ← h0, ← h1]
    · injection hmap with h0 hrest
      injection hrest with h1 _
      simp [extract_pair, ← h0, ← h1]

/-- Witness for C4: strict order, tie, reverse order, and the remapping, all
at concrete prices and tagged orders. -/
theorem submission_order_and_remap_witness :
    (ordersToSend (decide ((1 : ℚ)/4 ≤ 1/2)) "sy" "sn" = ["sy", "sn"])
    ∧ (ordersToSend (decide ((1 : ℚ)/2 ≤ 1/2)) "sy" "sn" = ["sy", "sn"])
    ∧ (ordersToSend (decide ((3 : ℚ)/4 ≤ 1/2)) "sy" "sn" = ["sn", "sy"])
    ∧ extract_pair false "snr" "syr" = ("syr", "snr") :=
  ⟨(submission_order_and_remap (1/2) (1/4) "sy" "sn" id).1 (by norm_num),
   (submission_order_and_remap (1/2) (1/2) "sy" "sn" id).2.1 rfl,
   (submission_order_and_remap (1/2) (3/4) "sy" "sn" id).2.2.1 (by norm_num),
   (submission_order_and_remap (1/2) (3/4) "sy" "sn"
      (fun s => s ++ "r")).2.2.2 false "snr" "syr" rfl⟩

/-- C5: the down symbol `"↓"` — and only it — selects the second configured
slippage, every other direction string selects the first
(`executor.rs` lines 130–136), and the slippage-adjusted leg price is capped
at 1 (`executor.rs` lines 177–180). -/
theorem slippage_policy (cfg : TradingExecutor) (dir : String) (ask : ℚ) :
    (dir = "↓" → slippage_for_direction cfg dir = cfg.slippage.2)
    ∧ (dir ≠ "↓" → slippage_for_direction cfg dir = cfg.slippage.1)
    ∧ leg_price cfg ask dir ≤ 1 := by
  refine ⟨?_, ?_, min_le_right _ _⟩
  · intro h
    simp [slippage_for_direction, h]
  · intro h
    simp [slippage_for_direction, h]

/-- Witness for C5 at the four direction strings named by the claim. -/
theorem slippage_policy_witness :
    slippage_for_direction exCfg "↓" = exCfg.slippage.2
    ∧ slippage_for_direction exCfg "↑" = exCfg.slippage.1
    ∧ slippage_for_direction exCfg "−" = exCfg.slippage.1
    ∧ slippage_for_direction exCfg "" = exCfg.slippage.1
    ∧ leg_price exCfg (99/100) "↓" ≤ 1 :=
  ⟨(slippage_policy exCfg "↓" 0).1 rfl,
   (slippage_policy exCfg "↑" 0).2.1 (by decide),
   (slippage_policy exCfg "−" 0).2.1 (by decide),
   (slippage_policy exCfg "" 0).2.1 (by decide),
   (slippage_policy exCfg "↓" (99/100)).2.2⟩

/-- C10: every `OrderPairResult` the executor returns has `success = true`
and both size fields equal to the computed order size — partial versus full
fill is visible only in `yesFilled` / `noFilled`
(`executor.rs` lines 17–26 and 471–480). -/
theorem exec_ok_invariant {B S : Type} (cfg : TradingExecutor) (env : ExecEnv B S)
    (opp : ArbitrageOpportunity) (yesDir noDir : String) (r : OrderPairResult)
    (h : execute_arbitrage_pair cfg env opp yesDir noDir = .ok r) :
    r.success = true ∧ r.yesSize = order_size cfg opp
      ∧ r.noSize = order_size cfg opp ∧ r.yesSize = r.noSize := by
  simp only [execute_arbitrage_pair] at h
  split at h
  · exact absurd h (by simp)
  · split at h
    · exact absurd h (by simp)
    · exact absurd h (by simp)
    · split at h
      · exact absurd h (by simp)
      · exact absurd h (by simp)
      · split at h
        · exact absurd h (by simp)
        · simp only [reconcile_pair] at h
          split at h
          · exact absurd h (by simp)
          · rw [Except.ok.injEq] at h
            subst h
            exact ⟨rfl, rfl, rfl, rfl⟩
        · exact absurd h (by simp)

/-- Witness for C10: a concrete partially-filled run returns `exResult`,
whose flag and sizes satisfy the invariant. -/
theorem exec_ok_invariant_witness :
    execute_arbitrage_pair exCfg exEnv exOppBig "" "" = .ok exResult
    ∧ (exResult.success = true ∧ exResult.yesSize = order_size exCfg exOppBig
        ∧ exResult.noSize = order_size exCfg exOppBig
        ∧ exResult.yesSize = exResult.noSize) := by
  have hgate : ¬(leg_price exCfg exOppBig.yesAskPrice "" * order_size exCfg exOppBig ≤ 1 ∨
      leg_price exCfg exOppBig.noAskPrice "" * order_size exCfg exOppBig ≤ 1) := by
    norm_num [leg_price, order_size, slippage_for_direction, exCfg, exOppBig,
      (by decide : ("" : String) ≠ "↓")]
  have hd : decide (leg_price exCfg exOppBig.noAskPrice "" ≤
      leg_price exCfg exOppBig.yesAskPrice "") = true :=
    decide_eq_true (by norm_num [leg_price, slippage_for_direction, exCfg, exOppBig,
      (by decide : ("" : String) ≠ "↓")])
  have hrun : execute_arbitrage_pair exCfg exEnv exOppBig "" "" = .ok exResult := by
    simp only [execute_arbitrage_pair, hd]
    rw [if_neg hgate]
    norm_num [exEnv, ordersToSend, extract_pair, reconcile_pair, exResult,
      order_size, exCfg, exOppBig, (by decide : ("" : String) ≠ "↓")]
  exact ⟨hrun, exec_ok_invariant exCfg exEnv exOppBig "" "" exResult hrun⟩

/-! ## Concrete merge environments used by the witnesses -/

/-- A keccak stand-in used by the merge witnesses. -/
def KZero : List Nat → List Nat := fun _ => List.replicate 32 0

/-- A merge environment on the forwarding-proxy path: balances (50, 30),
empty proxy bytecode, a configured proxy that does not match the address
`KZero` derives, no override, all three credentials present. -/
def mergeEnvBase : MergeEnv :=
  { conditionId := List.replicate 32 7
    proxy := List.replicate 20 1
    wallet := List.replicate 20 2
    bYesRead := some 50
    bNoRead := some 30
    codeRead := some []
    tryAnyway := false
    builderKey := some "k"
    builderSecret := some "s"
    builderPassphrase := some "p"
    relayerRun := fun _ _ _ _ => .ok "0xrelayed"
    safeRun := fun _ => .ok "0xsafe" }

/-- `mergeEnvBase` with a zero YES balance. -/
def mergeEnvZero : MergeEnv :=
  { mergeEnvBase with bYesRead := some 0, bNoRead := some 5 }

/-- `mergeEnvBase` with the `MERGE_TRY_ANYWAY` override set. -/
def mergeEnvForce : MergeEnv :=
  { mergeEnvBase with tryAnyway := true }

/-- `mergeEnvBase` with a failed bytecode read. -/
def mergeEnvNoCode : MergeEnv :=
  { mergeEnvBase with codeRead := none }

/-! ## Claims about `merge_max` -/

/-- C1: the computed merge amount is the minimum of the two balances read
(after the best-effort zero degrade of a failed read), and a zero minimum is
a terminal `nothingToMerge` error for *every* environment and hash function
— in particular the error is produced before the merge calldata, the
bytecode read, or either submission path can influence the result
(`merge.rs` lines 363–366). -/
theorem merge_amount_is_min_and_zero_is_terminal (K : List Nat → List Nat)
    (env : MergeEnv) :
    merge_amount (env.bYesRead.getD 0) (env.bNoRead.getD 0)
        = min (env.bYesRead.getD 0) (env.bNoRead.getD 0)
    ∧ (min (env.bYesRead.getD 0) (env.bNoRead.getD 0) = 0 →
        merge_max K env =
          .error (.nothingToMerge (env.bYesRead.getD 0) (env.bNoRead.getD 0))) := by
  refine ⟨rfl, fun h => ?_⟩
  simp only [merge_max]
  rw [if_pos (show merge_amount (env.bYesRead.getD 0) (env.bNoRead.getD 0) = 0 from h)]

/-- Witness for C1 at balances (0, 5): the spec's "either side zero" end-to-end
scenario. -/
theorem merge_amount_is_min_and_zero_is_terminal_witness :
    merge_amount 0 5 = min 0 5
    ∧ merge_max KZero mergeEnvZero = .error (.nothingToMerge 0 5) :=
  ⟨(merge_amount_is_min_and_zero_is_terminal KZero mergeEnvZero).1,
   (merge_amount_is_min_and_zero_is_terminal KZero mergeEnvZero).2 (by decide)⟩

/-- C7: on the forwarding-proxy path, a CREATE2 re-derivation that disagrees
with the configured proxy is a terminal `proxyKindMismatch` error when the
override is unset — the relayer collaborator never contributes to the result
— and with the override set the call proceeds to the relayer submission
despite the mismatch (`merge.rs` lines 373–399). -/
theorem forwarding_mismatch_policy (K : List Nat → List Nat) (env : MergeEnv)
    (h0 : merge_amount (env.bYesRead.getD 0) (env.bNoRead.getD 0) ≠ 0)
    (hfwd : (env.codeRead.getD []).length < 150)
    (hmis : derive_proxy_wallet K env.wallet PROXY_FACTORY ≠ env.proxy) :
    (env.tryAnyway = false →
      merge_max K env = .error (.proxyKindMismatch env.proxy
        (derive_proxy_wallet K env.wallet PROXY_FACTORY)))
    ∧ (env.tryAnyway = true → ∀ k s p : String,
        env.builderKey = some k → env.builderSecret = some s →
        env.builderPassphrase = some p →
        merge_max K env = (env.relayerRun k s p
          (encode_merge_calldata K USDC_POLYGON (List.replicate 32 0) env.conditionId [1, 2]
            (merge_amount (env.bYesRead.getD 0) (env.bNoRead.getD 0)))).mapError
              .relayerFailed) := by
  have hsel : select_path env.codeRead = .forwardingProxy := by
    simp [select_path, hfwd]
  constructor
  · intro hf
    simp only [merge_max]
    rw [if_neg h0, if_pos hsel]
    simp only [forwarding_branch]
    rw [if_pos ⟨hmis, hf⟩]
  · intro ht k s p hk hs hp
    simp only [merge_max]
    rw [if_neg h0, if_pos hsel]
    simp only [forwarding_branch]
    rw [if_neg (fun hc => by rw [ht] at hc; exact Bool.noConfusion hc.2)]
    rw [hk, hs, hp]

/-- Witness for C7: the mismatching environment fails without the override
and reaches the relayer with it. -/
theorem forwarding_mismatch_policy_witness :
    merge_max KZero mergeEnvBase = .error (.proxyKindMismatch mergeEnvBase.proxy
      (derive_proxy_wallet KZero mergeEnvBase.wallet PROXY_FACTORY))
    ∧ merge_max KZero mergeEnvForce = (mergeEnvForce.relayerRun "k" "s" "p"
        (encode_merge_calldata KZero USDC_POLYGON (List.replicate 32 0)
          mergeEnvForce.conditionId [1, 2]
          (merge_amount (mergeEnvForce.bYesRead.getD 0)
            (mergeEnvForce.bNoRead.getD 0)))).mapError .relayerFailed :=
  ⟨(forwarding_mismatch_policy KZero mergeEnvBase (by decide) (by decide) (by decide)).1 rfl,
   (forwarding_mismatch_policy KZero mergeEnvForce (by decide) (by decide) (by decide)).2
     rfl "k" "s" "p" rfl rfl rfl⟩

/-- C9: a failed bytecode read is degraded to empty bytecode, whose length 0
is below the 150-byte threshold, so `merge_max` silently selects the
forwarding-proxy/relayer path — the read failure never surfaces as an error
at path selection (`merge.rs` lines 371–373). -/
theorem code_read_failure_takes_relayer_path (K : List Nat → List Nat)
    (env : MergeEnv) (hread : env.codeRead = none)
    (h0 : merge_amount (env.bYesRead.getD 0) (env.bNoRead.getD 0) ≠ 0) :
    select_path env.codeRead = .forwardingProxy
    ∧ merge_max K env = forwarding_branch K env
        (encode_merge_calldata K USDC_POLYGON (List.replicate 32 0) env.conditionId [1, 2]
          (merge_amount (env.bYesRead.getD 0) (env.bNoRead.getD 0))) := by
  have hsel : select_path env.codeRead = .forwardingProxy := by
    simp [select_path, hread]
  refine ⟨hsel, ?_⟩
  simp only [merge_max]
  rw [if_neg h0, if_pos hsel]

/-- Witness for C9 at a concrete environment whose bytecode read failed. -/
theorem code_read_failure_takes_relayer_path_witness :
    select_path mergeEnvNoCode.codeRead = .forwardingProxy
    ∧ merge_max KZero mergeEnvNoCode = forwarding_branch KZero mergeEnvNoCode
        (encode_merge_calldata KZero USDC_POLYGON (List.replicate 32 0)
          mergeEnvNoCode.conditionId [1, 2]
          (merge_amount (mergeEnvNoCode.bYesRead.getD 0)
            (mergeEnvNoCode.bNoRead.getD 0))) :=
  code_read_failure_takes_relayer_path KZero mergeEnvNoCode rfl (by decide)

/-! ## Claims about the meta-transaction hash scheme (C6) -/

/-- The byte concatenation the claim asserts for the meta-transaction hash:
the fixed ASCII domain tag, sender, target, calldata, **three** zero-valued
32-byte fields, the caller-supplied 32-byte gas-limit field, the parsed
nonce as a 32-byte field, the relay-hub address and the relay address.  This
definition follows the claim's wording, to be compared against
`struct_hash_preimage` as built by the source, which places only *two*
zero-valued 32-byte fields (fee and gas price) before the gas-limit field. -/
def claimed_struct_preimage_three_zeros (sender target data : List Nat)
    (gasLimit : Nat) (nonce : String) (relayHub relay : List Nat) : List Nat :=
  RLX_TAG ++ sender ++ target ++ data
    ++ be32 0 ++ be32 0 ++ be32 0
    ++ be32 gasLimit
    ++ be32 ((rustParseU64 nonce).getD 0)
    ++ relayHub ++ relay

/-- The claim amended to the source's actual layout: *two* zero-valued
32-byte fields (fee and gas price, both fixed to zero at the call site)
before the gas-limit field. -/
def amended_struct_preimage (sender target data : List Nat)
    (gasLimit : Nat) (nonce : String) (relayHub relay : List Nat) : List Nat :=
  RLX_TAG ++ sender ++ target ++ data
    ++ be32 0 ++ be32 0
    ++ be32 gasLimit
    ++ be32 ((rustParseU64 nonce).getD 0)
    ++ relayHub ++ relay

/-- Counterexample to C6 as stated: at a concrete sender, target, empty
calldata, gas limit 5, nonce "0" and relay addresses, and with the hash
function instantiated to the identity, the hashed byte string is *not* the
claimed concatenation with three zero-valued 32-byte fields (the claimed
preimage is 32 bytes longer — the source hashes only two zero fields). -/
theorem meta_tx_hash_claim_counterexample :
    create_struct_hash (fun l => l) (List.replicate 20 3) (List.replicate 20 4) [] 0 0 5 "0"
        RELAY_HUB (List.replicate 20 6)
      ≠ (fun l => l) (claimed_struct_preimage_three_zeros (List.replicate 20 3)
        (List.replicate 20 4) [] 5 "0" RELAY_HUB (List.replicate 20 6)) := by
  decide

/-- C6 amended: with fee and gas price fixed to zero as at the call site
(`merge.rs` line 253), the struct hash is the hash of the tag, sender,
target, calldata, **two** zero-valued 32-byte fields, the gas-limit field,
the nonce parsed from its decimal string (defaulting to zero when
non-numeric), and the two relay addresses; and the hash that is signed is
the hash of the personal-message framing followed by the struct hash
(`merge.rs` lines 196–226, 253–254). -/
theorem meta_tx_hash_scheme (K : List Nat → List Nat) (sender target data : List Nat)
    (gasLimit : Nat) (nonce : String) (relayHub relay : List Nat) :
    create_struct_hash K sender target data 0 0 gasLimit nonce relayHub relay
        = K (amended_struct_preimage sender target data gasLimit nonce relayHub relay)
    ∧ (∀ h : List Nat, eip191_hash K h = K (ETH_SIGNED_MESSAGE_TAG ++ h))
    ∧ (rustParseU64 nonce = none →
        create_struct_hash K sender target data 0 0 gasLimit nonce relayHub relay
          = create_struct_hash K sender target data 0 0 gasLimit "0" relayHub relay) := by
  refine ⟨rfl, fun _ => rfl, fun hbad => ?_⟩
  simp only [create_struct_hash, struct_hash_preimage, hbad, Option.getD,
    show rustParseU64 "0" = some 0 from rfl]

/-- Witness for the amended C6: a non-numeric nonce hashes like the nonce
"0". -/
theorem meta_tx_hash_scheme_witness :
    rustParseU64 "xyz" = none
    ∧ create_struct_hash (fun l => l) [1] [2] [] 0 0 5 "xyz" RELAY_HUB [3]
        = create_struct_hash (fun l => l) [1] [2] [] 0 0 5 "0" RELAY_HUB [3] :=
  ⟨rfl, (meta_tx_hash_scheme (fun l => l) [1] [2] [] 5 "xyz" RELAY_HUB [3]).2.2 rfl⟩

/-! ## Claim about the CREATE2 address derivation (C8) -/

/-- C8: the derived proxy address is the low 20 bytes of
`keccak(0xff ‖ factory ‖ keccak(owner) ‖ initCodeHash)`
(`merge.rs` lines 129–138); the derivation is a pure function of the owner,
hence the same owner yields the same address on every call; and whenever the
hash function and its 20-byte truncation are injective on these buffers (the
standard collision-freeness model of keccak), any two distinct owners — in
particular owners differing in a single byte — derive distinct addresses. -/
theorem derive_proxy_wallet_spec (K : List Nat → List Nat) (owner : List Nat) :
    derive_proxy_wallet K owner PROXY_FACTORY
        = low20 (K ([0xff] ++ PROXY_FACTORY ++ K owner ++ PROXY_INIT_CODE_HASH))
    ∧ derive_proxy_wallet K owner PROXY_FACTORY = derive_proxy_wallet K owner PROXY_FACTORY
    ∧ (Function.Injective K → Function.Injective (fun l => low20 (K l)) →
        ∀ owner' : List Nat, owner ≠ owner' →
          derive_proxy_wallet K owner PROXY_FACTORY
            ≠ derive_proxy_wallet K owner' PROXY_FACTORY) := by
  refine ⟨rfl, rfl, fun hK hT o' hne heq => hne ?_⟩
  have hbuf : [0xff] ++ PROXY_FACTORY ++ K owner ++ PROXY_INIT_CODE_HASH
      = [0xff] ++ PROXY_FACTORY ++ K o' ++ PROXY_INIT_CODE_HASH := hT heq
  have hsalt : K owner = K o' := by
    have h2 : K owner ++ PROXY_INIT_CODE_HASH = K o' ++ PROXY_INIT_CODE_HASH := by
      simpa only [PROXY_FACTORY, List.cons_append, List.nil_append, List.append_assoc,
        List.cons.injEq, true_and] using hbuf
    exact List.append_cancel_right h2
  exact hK hsalt

/-- A hash stand-in for the C8 witness: injective, and injective after the
20-byte truncation, because it plants an injective encoding of its input at
byte 12. -/
def KEnc (l : List Nat) : List Nat :=
  [0, 0, 0, 0, 0, 0, 0, 0, 0, 0, 0, 0]
    ++ (Encodable.encode l :: [0, 0, 0, 0, 0, 0, 0, 0, 0, 0, 0, 0, 0, 0, 0, 0, 0, 0, 0])

theorem KEnc_inj : Function.Injective KEnc := by
  intro a b h
  simp only [KEnc, List.cons_append, List.nil_append, List.cons.injEq, true_and] at h
  exact Encodable.encode_injective h.1

theorem low20_KEnc (l : List Nat) :
    low20 (KEnc l) = Encodable.encode l :: [0, 0, 0, 0, 0, 0, 0, 0, 0, 0, 0, 0, 0, 0, 0, 0, 0, 0, 0] := rfl

theorem low20_KEnc_inj : Function.Injective (fun l => low20 (KEnc l)) := by
  intro a b h
  simp only [low20_KEnc, List.cons.injEq, and_true] at h
  exact Encodable.encode_injective h

/-- Witness for C8: two owners differing in their first byte derive
distinct addresses under the injective hash stand-in. -/
theorem derive_proxy_wallet_spec_witness :
    derive_proxy_wallet KEnc (0 :: List.replicate 19 0) PROXY_FACTORY
      ≠ derive_proxy_wallet KEnc (1 :: List.replicate 19 0) PROXY_FACTORY :=
  (derive_proxy_wallet_spec KEnc (0 :: List.replicate 19 0)).2.2 KEnc_inj low20_KEnc_inj
    (1 :: List.replicate 19 0) (by decide)

end PolyArb
